import Mathlib

/-!
Shallow embedding of the outbound request/response normalization layer of
`my_server.py`: input validation and URL construction for `search_products`,
document enrichment and envelope construction in `_send_to_qsc_internal`,
identifier resolution in `send_to_qsc_with_doc_id`, and the tool entry points
`send_message` and `add_to_cart`.

Python values are modelled by the inductive `Val`; Python dicts by association
lists with Python literal semantics (later keys override earlier ones);
nondeterministic effects (the UUID generator, the clock, the network) are
passed in as explicit oracle parameters; a Python call that may raise returns
a `PyResult`.
-/

/-- A Python/JSON value: strings, integers, booleans, None, lists, dicts. -/
inductive Val where
  | str (s : String)
  | num (n : Int)
  | bool (b : Bool)
  | null
  | arr (elems : List Val)
  | obj (fields : List (String × Val))

/-- A Python dict, as an association list in insertion order with unique keys. -/
abbrev Dict := List (String × Val)

/-- Lookup of a key in a dict (first — in a well-formed dict, only — match). -/
def Dict.get? : Dict → String → Option Val
  | [], _ => none
  | (k1, v) :: d, k => if k1 = k then some v else Dict.get? d k

/-- Assigning `d[k] = v` in Python: replace in place if the key exists,
otherwise append at the end (insertion order is preserved). -/
def Dict.insert : Dict → String → Val → Dict
  | [], k, v => [(k, v)]
  | (k1, v1) :: d, k, v =>
    if k1 = k then (k1, v) :: d else (k1, v1) :: Dict.insert d k v

/-- The `**e` spread in a Python dict literal whose earlier entries are `d`:
each entry of `e` is assigned into `d` in order, overriding duplicates. -/
def Dict.update (d : Dict) (e : Dict) : Dict :=
  e.foldl (fun acc p => acc.insert p.1 p.2) d

/-- Python truthiness of an optional string (`os.environ.get` result or a
`str` parameter that may be `None`): `None` and `""` are falsy. -/
def str_falsy : Option String → Bool
  | none => true
  | some s => s.isEmpty

/-- The UTF-8 encoding of a character, as a list of byte values. -/
def utf8Bytes (c : Char) : List Nat :=
  let n := c.toNat
  if n < 128 then [n]
  else if n < 2048 then [192 + n / 64, 128 + n % 64]
  else if n < 65536 then [224 + n / 4096, 128 + (n / 64) % 64, 128 + n % 64]
  else [240 + n / 262144, 128 + (n / 4096) % 64, 128 + (n / 64) % 64, 128 + n % 64]

/-- Uppercase hexadecimal digit for `n < 16`. -/
def hexDigit (n : Nat) : Char :=
  if n < 10 then Char.ofNat (48 + n) else Char.ofNat (55 + n)

/-- `urllib.parse.quote_plus` on one byte: space becomes `+`, ASCII letters,
digits and `_ . - ~` pass through, every other byte is percent-encoded. -/
def encodeByte (b : Nat) : String :=
  if b = 32 then "+"
  else if (65 ≤ b ∧ b ≤ 90) ∨ (97 ≤ b ∧ b ≤ 122) ∨ (48 ≤ b ∧ b ≤ 57)
      ∨ b = 95 ∨ b = 46 ∨ b = 45 ∨ b = 126 then
    String.singleton (Char.ofNat b)
  else
    "%" ++ String.singleton (hexDigit (b / 16)) ++ String.singleton (hexDigit (b % 16))

/-- `urllib.parse.quote_plus` over the UTF-8 bytes of a string. -/
def quote_plus (s : String) : String :=
  ((s.data.flatMap utf8Bytes).map encodeByte).foldl (· ++ ·) ""

/-- `urllib.parse.urlencode`: `k=v` pairs quoted with `quote_plus` and joined
by `&`. -/
def urlencode (params : List (String × String)) : String :=
  String.intercalate "&" (params.map fun p => quote_plus p.1 ++ "=" ++ quote_plus p.2)

example : quote_plus " a " = "+a+" := by decide
example : urlencode [("q", "red shoes")] = "q=red+shoes" := by decide

/-- httpx `Response.is_success`: the status code is 2xx. -/
def is_success (status : Nat) : Bool := 200 ≤ status && status < 300

/-- Outcome of the single httpx GET performed by a search dispatch: either a
response object exists (status code, body text, and the result of
`resp.json()`, which is a parsed value or a ValueError message), or the
request raised before any response existed (`httpx.RequestError` for
transport failures; any other exception is also caught). -/
inductive GetOutcome where
  | response (status : Nat) (text : String) (json : Except String Val)
  | requestError (msg : String)
  | otherError (msg : String)

/-- The fixed search endpoint of line 46 of `my_server.py`. -/
def search_base_url : String := "https://qsc.quasiris.de/api/v1/search/ab/products"

/-- Lines 45 and 46: `params` is built from the original, untrimmed `q`, and
the URL appends `urlencode(params)` after a question mark. -/
def search_url (q : String) : String :=
  search_base_url ++ "?" ++ urlencode [("q", q)]

/-- Python `str.isspace`, the set a no-argument `str.strip()` removes:
tab through carriage return (9-13), the C0 separators 28-31, space, NEL
(133), no-break space (160), Ogham space mark (5760), the Unicode spaces
8192-8202, line and paragraph separator (8232, 8233), narrow no-break
space (8239), medium mathematical space (8287), and ideographic space
(12288). -/
def pyIsSpace (c : Char) : Bool :=
  let n := c.toNat
  decide ((9 ≤ n ∧ n ≤ 13) ∨ (28 ≤ n ∧ n ≤ 32) ∨ n = 133 ∨ n = 160 ∨ n = 5760
    ∨ (8192 ≤ n ∧ n ≤ 8202) ∨ n = 8232 ∨ n = 8233 ∨ n = 8239 ∨ n = 8287
    ∨ n = 12288)

/-- Python `str.strip()`: drop leading and trailing whitespace. -/
def pyStrip (s : String) : String :=
  ⟨((s.data.dropWhile pyIsSpace).reverse.dropWhile pyIsSpace).reverse⟩

/-- The validation test of line 42: `q` is a string that is nonblank after
`strip()` (an empty stripped string is falsy). Any non-string value fails
the `isinstance(q, str)` check. -/
def is_valid_q : Val → Bool
  | .str s => !(pyStrip s).data.isEmpty
  | _ => false

/-- Lines 31 to 67, `search_products`: validate `q`; on failure return the
error dict without touching the network; otherwise perform the GET and
normalize its outcome. `raise_for_status` raises `httpx.HTTPStatusError`
exactly when the status is not 2xx, and that handler reads the status code,
the requested URL, and the body truncated to 2000 characters. The returned
pair carries the result dict and whether the network was consulted. The
module-level `QSC_TOKEN` is in scope but never read by this function. -/
def search_products (QSC_TOKEN : Option String) (q : Val) (net : GetOutcome) :
    Val × Bool :=
  if !is_valid_q q then
    (.obj [("error", .str "Parameter 'q' must be a non-empty string.")], false)
  else
    let qs := match q with | .str s => s | _ => ""
    let url := search_url qs
    match net with
    | .response status text json =>
      if is_success status then
        match json with
        | .ok v => (v, true)
        | .error msg =>
          (.obj [("error", .str ("Invalid JSON from upstream: " ++ msg))], true)
      else
        (.obj [("error", .str "Upstream HTTP error"),
               ("status_code", .num status),
               ("url", .str url),
               ("body", .str (text.take 2000))], true)
    | .requestError msg => (.obj [("error", .str ("Network error: " ++ msg))], true)
    | .otherError msg => (.obj [("error", .str ("Unexpected error: " ++ msg))], true)

/-- Result of a Python call: a returned value, or a raised exception
(rendered as its message). -/
inductive PyResult (α : Type) where
  | ret (a : α)
  | raise (exc : String)

/-- Outcome of the single httpx POST performed by a document-send dispatch:
either a response object was produced and bound to `resp`, or the call raised
before any response object existed (timeout, connection failure, ...). -/
inductive PostOutcome where
  | response (status : Nat) (text : String)
  | raised (msg : String)

/-- The fixed ingestion endpoint of line 15 of `my_server.py`. -/
def QSC_URL : String := "https://qsc-dev.quasiris.de/api/v1/data/bulk/qsc/demo/messages"

/-- Lines 147 to 151: the payload dict literal lists `id` and `timestamp`
first and then spreads `**data`; by Python dict-literal semantics the entries
of `data` override the two system entries on key collision. -/
def payloadDict (doc_id timestamp : String) (data : Dict) : Dict :=
  Dict.update [("id", .str doc_id), ("timestamp", .str timestamp)] data

/-- Lines 142 to 152: the `documents` list sent as the POST body, a
one-element list whose element has a `header` dict (`id`, `action: update`)
and a `payload` dict. -/
def _send_documents (doc_id timestamp : String) (data : Dict) : List Dict :=
  [[("header", .obj [("id", .str doc_id), ("action", .str "update")]),
    ("payload", .obj (payloadDict doc_id timestamp data))]]

/-- Lines 135 to 177, `_send_to_qsc_internal`: raise RuntimeError when the
token is falsy (before building `documents` and before any network call);
otherwise build `documents` and POST. When a response exists, return the
result dict. When the POST itself raised, the `except` block evaluates
`resp.is_success` with the local `resp` never assigned, so the handler
itself raises UnboundLocalError instead of returning its dict. `now` is the
value of `datetime.now(...).isoformat()`. The second component is the body
actually handed to the network, `none` when no network call was made. -/
def _send_to_qsc_internal (QSC_TOKEN : Option String) (now : String)
    (doc_id : String) (data : Dict) (net : PostOutcome) :
    PyResult Dict × Option (List Dict) :=
  if str_falsy QSC_TOKEN then
    (.raise "RuntimeError: Missing X_QSC_TOKEN environment variable", none)
  else
    let documents := _send_documents doc_id now data
    match net with
    | .response status text =>
      (.ret [("id", .str doc_id),
             ("status", .num status),
             ("ok", .bool (is_success status)),
             ("text", .str text)], some documents)
    | .raised _ =>
      (.raise "UnboundLocalError: local variable resp referenced before assignment",
       some documents)

/-- Lines 130 and 131: use the given `doc_id` unless it is falsy (`None` or
empty), in which case a freshly drawn UUID (`fresh`) replaces it. -/
def resolve_doc_id (fresh : String) (doc_id : Option String) : String :=
  match doc_id with
  | none => fresh
  | some s => if s.isEmpty then fresh else s

/-- Lines 125 to 132, `send_to_qsc_with_doc_id`. -/
def send_to_qsc_with_doc_id (fresh : String) (QSC_TOKEN : Option String)
    (now : String) (doc_id : Option String) (data : Dict) (net : PostOutcome) :
    PyResult Dict × Option (List Dict) :=
  _send_to_qsc_internal QSC_TOKEN now (resolve_doc_id fresh doc_id) data net

/-- Lines 117 to 122, `send_to_qsc`: always a fresh UUID as id. -/
def send_to_qsc (fresh : String) (QSC_TOKEN : Option String) (now : String)
    (data : Dict) (net : PostOutcome) : PyResult Dict × Option (List Dict) :=
  _send_to_qsc_internal QSC_TOKEN now fresh data net

/-- Lines 78 to 82: the `doc` dict built by `send_message`. -/
def send_message_doc (msg_id message : String) : Dict :=
  [("id", .str msg_id), ("type", .str "message"), ("message", .str message)]

/-- Lines 70 to 88, `send_message`: draw `uuid` as `msg_id`, build the doc,
dispatch through `send_to_qsc_with_doc_id`. `fresh` is the UUID that call
would draw if `uuid` were falsy. -/
def send_message (QSC_TOKEN : Option String) (uuid fresh now : String)
    (message : String) (net : PostOutcome) : PyResult Dict × Option (List Dict) :=
  send_to_qsc_with_doc_id fresh QSC_TOKEN now (some uuid)
    (send_message_doc uuid message) net

/-- Lines 103 to 109: the `doc` dict built by `add_to_cart`. -/
def add_to_cart_doc (msg_id cartId customerId sku : String) : Dict :=
  [("id", .str msg_id), ("type", .str "addToCart"), ("cartId", .str cartId),
   ("sku", .str sku), ("customerId", .str customerId)]

/-- Lines 91 to 115, `add_to_cart`. -/
def add_to_cart (QSC_TOKEN : Option String) (uuid fresh now : String)
    (cartId customerId sku : String) (net : PostOutcome) :
    PyResult Dict × Option (List Dict) :=
  send_to_qsc_with_doc_id fresh QSC_TOKEN now (some uuid)
    (add_to_cart_doc uuid cartId customerId sku) net

/-- The header dict of an envelope element, when present and a dict. -/
def envelope_header (env : Dict) : Option Dict :=
  match Dict.get? env "header" with
  | some (.obj h) => some h
  | _ => none

/-- The payload dict of an envelope element, when present and a dict. -/
def envelope_payload (env : Dict) : Option Dict :=
  match Dict.get? env "payload" with
  | some (.obj p) => some p
  | _ => none

/-- The id field of the envelope header. -/
def envelope_header_id (env : Dict) : Option Val :=
  (envelope_header env).bind (fun h => Dict.get? h "id")

/-- The action field of the envelope header. -/
def envelope_action (env : Dict) : Option Val :=
  (envelope_header env).bind (fun h => Dict.get? h "action")

/-- A named field of the envelope payload. -/
def envelope_payload_field (env : Dict) (k : String) : Option Val :=
  (envelope_payload env).bind (fun p => Dict.get? p k)

/-! ### Helper lemmas on the dict model -/

theorem Dict.get_insert_self (d : Dict) (k : String) (v : Val) :
    Dict.get? (Dict.insert d k v) k = some v := by
  induction d with
  | nil => simp [Dict.insert, Dict.get?]
  | cons p d ih =>
    obtain ⟨k1, v1⟩ := p
    by_cases h : k1 = k <;> simp [Dict.insert, Dict.get?, h, ih]

theorem Dict.get_insert_ne (d : Dict) (k k1 : String) (v : Val) (h : k1 ≠ k) :
    Dict.get? (Dict.insert d k1 v) k = Dict.get? d k := by
  induction d with
  | nil => simp [Dict.insert, Dict.get?, h]
  | cons p d ih =>
    obtain ⟨k2, v2⟩ := p
    by_cases h2 : k2 = k1
    · subst h2
      simp [Dict.insert, Dict.get?, h]
    · simp [Dict.insert, Dict.get?, h2, ih]

theorem Dict.get_none_of_not_mem_keys (e : Dict) (k : String)
    (h : k ∉ e.map Prod.fst) : Dict.get? e k = none := by
  induction e with
  | nil => rfl
  | cons p e ih =>
    obtain ⟨k1, v1⟩ := p
    simp only [List.map_cons, List.mem_cons] at h
    push_neg at h
    simp [Dict.get?, Ne.symm h.1, ih h.2]

/-- A fold step of `Dict.update`. -/
theorem Dict.update_cons (d : Dict) (k1 : String) (v1 : Val) (e : Dict) :
    Dict.update d ((k1, v1) :: e) = Dict.update (Dict.insert d k1 v1) e := rfl

theorem Dict.get_update_none (d e : Dict) (k : String)
    (he : Dict.get? e k = none) :
    Dict.get? (Dict.update d e) k = Dict.get? d k := by
  induction e generalizing d with
  | nil => rfl
  | cons p e ih =>
    obtain ⟨k1, v1⟩ := p
    by_cases h : k1 = k
    · simp [Dict.get?, h] at he
    · have he2 : Dict.get? e k = none := by simpa [Dict.get?, h] using he
      rw [Dict.update_cons, ih _ he2, Dict.get_insert_ne _ _ _ _ h]

theorem Dict.get_update_some (d e : Dict) (k : String) (v : Val)
    (hnd : (e.map Prod.fst).Nodup) (he : Dict.get? e k = some v) :
    Dict.get? (Dict.update d e) k = some v := by
  induction e generalizing d with
  | nil => simp [Dict.get?] at he
  | cons p e ih =>
    obtain ⟨k1, v1⟩ := p
    simp only [List.map_cons, List.nodup_cons] at hnd
    by_cases h : k1 = k
    · subst h
      have hv : v1 = v := by simpa [Dict.get?] using he
      subst hv
      have hnone : Dict.get? e k1 = none :=
        Dict.get_none_of_not_mem_keys e k1 hnd.1
      rw [Dict.update_cons, Dict.get_update_none _ _ _ hnone, Dict.get_insert_self]
    · have he2 : Dict.get? e k = some v := by simpa [Dict.get?, h] using he
      rw [Dict.update_cons]
      exact ih _ hnd.2 he2

/-- A non-falsy explicit document id survives `send_to_qsc_with_doc_id`. -/
theorem resolve_doc_id_of_ne (fresh u : String) (hu : u ≠ "") :
    resolve_doc_id fresh (some u) = u := by
  simp [resolve_doc_id, String.isEmpty_iff, hu]

/-- Whatever body `_send_to_qsc_internal` hands to the network is the
enriched documents list for its id, timestamp and data. -/
theorem sent_body_eq (QSC_TOKEN : Option String) (now doc_id : String)
    (data : Dict) (net : PostOutcome) (docs : List Dict)
    (h : (_send_to_qsc_internal QSC_TOKEN now doc_id data net).2 = some docs) :
    docs = _send_documents doc_id now data := by
  unfold _send_to_qsc_internal at h
  by_cases ht : str_falsy QSC_TOKEN
  · simp [ht] at h
  · cases net <;> simp [ht] at h <;> exact h.symm

/-! ### Claim theorems -/

/-- C3: for every input q that is not a string, or is a string blank after
stripping, search_products returns exactly the error dict with message
Parameter q must be a non-empty string, and the network is never consulted. -/
theorem search_products_rejects_invalid_q (QSC_TOKEN : Option String) (q : Val)
    (net : GetOutcome) (h : is_valid_q q = false) :
    search_products QSC_TOKEN q net =
      (.obj [("error", .str "Parameter 'q' must be a non-empty string.")], false) := by
  simp [search_products, h]

theorem search_products_rejects_invalid_q_witness :
    search_products none (.str " ") (.requestError "timeout") =
      (.obj [("error", .str "Parameter 'q' must be a non-empty string.")], false)
    ∧ search_products (some "tok") (.str "\u00A0\t") (.requestError "timeout") =
      (.obj [("error", .str "Parameter 'q' must be a non-empty string.")], false)
    ∧ search_products (some "tok") (.num 3) (.response 200 "ok" (.ok .null)) =
      (.obj [("error", .str "Parameter 'q' must be a non-empty string.")], false) :=
  ⟨search_products_rejects_invalid_q none (.str " ") (.requestError "timeout") (by decide),
   search_products_rejects_invalid_q (some "tok") (.str "\u00A0\t")
     (.requestError "timeout") (by decide),
   search_products_rejects_invalid_q (some "tok") (.num 3)
     (.response 200 "ok" (.ok .null)) rfl⟩

/-- C6: for every search dispatch whose upstream response carries a 4xx or
5xx status, the result is exactly the error dict with the Upstream HTTP
error message, the status code, the requested URL, and the body truncated
to 2000 characters; for a 503 response the status_code is 503. -/
theorem search_products_http_status_error (QSC_TOKEN : Option String)
    (qs text : String) (json : Except String Val) (status : Nat)
    (hq : is_valid_q (.str qs) = true) (h1 : 400 ≤ status) (h2 : status < 600) :
    search_products QSC_TOKEN (.str qs) (.response status text json) =
      (.obj [("error", .str "Upstream HTTP error"),
             ("status_code", .num status),
             ("url", .str (search_url qs)),
             ("body", .str (text.take 2000))], true) := by
  have hs : is_success status = false := by
    simp only [is_success, Bool.and_eq_false_iff, decide_eq_false_iff_not, not_le, not_lt]
    omega
  simp [search_products, hq, hs]

theorem search_products_http_status_error_witness :
    search_products (some "t") (.str "shoes") (.response 503 "busy" (.error "nope")) =
      (.obj [("error", .str "Upstream HTTP error"),
             ("status_code", .num 503),
             ("url", .str (search_url "shoes")),
             ("body", .str ("busy".take 2000))], true) :=
  search_products_http_status_error (some "t") "shoes" "busy" (.error "nope") 503
    (by decide) (by decide) (by decide)

/-- C7: for every search dispatch whose upstream response is a success and
whose body parses as JSON, the parsed body is returned verbatim. -/
theorem search_products_success_passthrough (QSC_TOKEN : Option String)
    (qs text : String) (v : Val) (status : Nat)
    (hq : is_valid_q (.str qs) = true) (h1 : 200 ≤ status) (h2 : status < 300) :
    search_products QSC_TOKEN (.str qs) (.response status text (.ok v)) = (v, true) := by
  have hs : is_success status = true := by
    simp only [is_success, Bool.and_eq_true, decide_eq_true_eq]
    omega
  simp [search_products, hq, hs]

theorem search_products_success_passthrough_witness :
    search_products (some "t") (.str "shoes")
        (.response 200 "raw" (.ok (.obj [("products", .arr [])]))) =
      (.obj [("products", .arr [])], true) :=
  search_products_success_passthrough (some "t") "shoes" "raw"
    (.obj [("products", .arr [])]) 200 (by decide) (by decide) (by decide)

/-- C8 counterexample: for the valid query consisting of a, surrounded by one
space on each side, the URL built by search_products encodes the original
string (giving plus a plus), not its stripped form: the claim that the
trimmed query is what gets appended fails on this input. -/
theorem search_url_untrimmed_cex :
    search_url " a " ≠ search_base_url ++ "?q=" ++ quote_plus (pyStrip " a ") := by
  decide

/-- C8 amended: the URL search_products requests is the fixed search endpoint
with the original, untrimmed query appended URL-encoded as the q parameter;
stripping is used only by the validation test. -/
theorem search_url_appends_original_query (q : String) :
    search_url q = search_base_url ++ "?q=" ++ quote_plus q := by
  show search_base_url ++ "?" ++ urlencode [("q", q)] = _
  rw [show urlencode [("q", q)] = "q=" ++ quote_plus q from rfl,
    ← String.append_assoc]
  rfl

/-- C1: code evaluation at the failing input. With the credential configured
and the POST raising a transport error before any response object exists,
the document-send dispatch does not return the safe-defaults result dict the
spec requires (status sentinel, ok false, empty text): the except handler
reads the never-assigned local resp and raises UnboundLocalError out of the
tool instead. -/
theorem send_transport_failure_raises_unbound_local :
    send_message (some "secret") "u-1" "f-1" "2025-01-01T12:00:00+01:00" "hello"
        (.raised "ConnectTimeout") =
      (.raise "UnboundLocalError: local variable resp referenced before assignment",
       some (_send_documents "u-1" "2025-01-01T12:00:00+01:00"
         (send_message_doc "u-1" "hello"))) := rfl

/-- C2 counterexample: with dispatch identifier y, system timestamp TS, and a
caller data mapping that itself binds id to x and timestamp to Z, the
enriched payload carries the caller values x and Z, not the system values:
the claimed precedence of the system fields fails. -/
theorem payload_system_fields_overridden_cex :
    Dict.get? (payloadDict "y" "TS" [("id", Val.str "x"), ("timestamp", Val.str "Z")]) "id"
        ≠ some (Val.str "y")
    ∧ Dict.get? (payloadDict "y" "TS" [("id", Val.str "x"), ("timestamp", Val.str "Z")]) "timestamp"
        ≠ some (Val.str "TS") := by
  constructor <;>
    · intro h
      simp [payloadDict, Dict.update, Dict.insert, Dict.get?] at h

/-- C2 amended: because the caller data is spread last in the payload
literal, caller-supplied fields override the system fields id and timestamp
on key collision; the system-assigned identifier and timestamp are carried
exactly when the caller data does not bind the key itself (as is the case
for the doc dicts the tools build, whose id equals the dispatch identifier
and which never bind timestamp). -/
theorem payload_caller_fields_override (doc_id ts : String) (data : Dict)
    (hnd : (data.map Prod.fst).Nodup) :
    (∀ v, Dict.get? data "id" = some v →
        Dict.get? (payloadDict doc_id ts data) "id" = some v)
    ∧ (∀ v, Dict.get? data "timestamp" = some v →
        Dict.get? (payloadDict doc_id ts data) "timestamp" = some v)
    ∧ (Dict.get? data "id" = none →
        Dict.get? (payloadDict doc_id ts data) "id" = some (Val.str doc_id))
    ∧ (Dict.get? data "timestamp" = none →
        Dict.get? (payloadDict doc_id ts data) "timestamp" = some (Val.str ts)) := by
  refine ⟨fun v hv => Dict.get_update_some _ _ _ _ hnd hv,
          fun v hv => Dict.get_update_some _ _ _ _ hnd hv,
          fun hn => ?_, fun hn => ?_⟩ <;>
    · simp only [payloadDict]
      rw [Dict.get_update_none _ _ _ hn]
      simp [Dict.get?]

theorem payload_caller_fields_override_witness :
    Dict.get? (payloadDict "y" "TS" [("id", Val.str "x")]) "id" = some (Val.str "x")
    ∧ Dict.get? (payloadDict "y" "TS" [("id", Val.str "x")]) "timestamp" = some (Val.str "TS") :=
  ⟨(payload_caller_fields_override "y" "TS" [("id", Val.str "x")] (by simp)).1
      (Val.str "x") rfl,
   (payload_caller_fields_override "y" "TS" [("id", Val.str "x")] (by simp)).2.2.2 rfl⟩

/-- C5: when the upstream credential is falsy, send_message and add_to_cart
raise the RuntimeError configuration error with no document built and no
network call (the second component is none), and are not normalized into a
result dict; search_products does not read the credential at all, so its
behavior is identical under any credential. -/
theorem missing_token_send_raises_search_unaffected (QSC_TOKEN : Option String)
    (h : str_falsy QSC_TOKEN = true) :
    (∀ uuid fresh now message net,
        send_message QSC_TOKEN uuid fresh now message net =
          (.raise "RuntimeError: Missing X_QSC_TOKEN environment variable", none))
    ∧ (∀ uuid fresh now cartId customerId sku net,
        add_to_cart QSC_TOKEN uuid fresh now cartId customerId sku net =
          (.raise "RuntimeError: Missing X_QSC_TOKEN environment variable", none))
    ∧ (∀ TOK2 q gnet, search_products QSC_TOKEN q gnet = search_products TOK2 q gnet) := by
  refine ⟨fun uuid fresh now message net => ?_,
          fun uuid fresh now cartId customerId sku net => ?_,
          fun TOK2 q gnet => rfl⟩ <;>
    simp [send_message, add_to_cart, send_to_qsc_with_doc_id, _send_to_qsc_internal, h]

theorem missing_token_send_raises_search_unaffected_witness :
    send_message none "u1" "f1" "T0" "hello" (.response 200 "OK") =
      (.raise "RuntimeError: Missing X_QSC_TOKEN environment variable", none)
    ∧ add_to_cart (some "") "u1" "f1" "T0" "c1" "cust1" "sku1" (.response 200 "OK") =
      (.raise "RuntimeError: Missing X_QSC_TOKEN environment variable", none)
    ∧ search_products none (.str "shoes") (.response 200 "ok" (.ok .null)) =
        search_products (some "secret") (.str "shoes") (.response 200 "ok" (.ok .null)) :=
  ⟨(missing_token_send_raises_search_unaffected none rfl).1 "u1" "f1" "T0" "hello" _,
   (missing_token_send_raises_search_unaffected (some "") rfl).2.1 "u1" "f1" "T0"
     "c1" "cust1" "sku1" _,
   (missing_token_send_raises_search_unaffected none rfl).2.2 (some "secret") _ _⟩

/-- C4: every body a send_message or add_to_cart dispatch hands to the
ingestion endpoint is a one-element list whose element has header fields id
and action with action update, and the header id equals the payload id. -/
theorem sent_envelope_invariant (QSC_TOKEN : Option String)
    (uuid fresh now message cartId customerId sku : String) (net : PostOutcome)
    (docs : List Dict) (hu : uuid ≠ "")
    (h : (send_message QSC_TOKEN uuid fresh now message net).2 = some docs
       ∨ (add_to_cart QSC_TOKEN uuid fresh now cartId customerId sku net).2 = some docs) :
    docs.length = 1
    ∧ ∀ env ∈ docs,
        envelope_header env = some [("id", .str uuid), ("action", .str "update")]
        ∧ envelope_action env = some (.str "update")
        ∧ envelope_header_id env = some (.str uuid)
        ∧ envelope_payload_field env "id" = some (.str uuid)
        ∧ envelope_header_id env = envelope_payload_field env "id" := by
  have hres : resolve_doc_id fresh (some uuid) = uuid := resolve_doc_id_of_ne fresh uuid hu
  rcases h with h | h
  · have hd : docs = _send_documents uuid now (send_message_doc uuid message) := by
      have h2 : (_send_to_qsc_internal QSC_TOKEN now (resolve_doc_id fresh (some uuid))
          (send_message_doc uuid message) net).2 = some docs := h
      rw [hres] at h2
      exact sent_body_eq _ _ _ _ _ _ h2
    subst hd
    refine ⟨rfl, fun env henv => ?_⟩
    simp only [_send_documents, List.mem_singleton] at henv
    subst henv
    refine ⟨?_, ?_, ?_, ?_, ?_⟩ <;>
      simp [envelope_header, envelope_action, envelope_header_id, envelope_payload,
        envelope_payload_field, _send_documents, payloadDict, Dict.update, Dict.insert,
        Dict.get?, send_message_doc]
  · have hd : docs = _send_documents uuid now (add_to_cart_doc uuid cartId customerId sku) := by
      have h2 : (_send_to_qsc_internal QSC_TOKEN now (resolve_doc_id fresh (some uuid))
          (add_to_cart_doc uuid cartId customerId sku) net).2 = some docs := h
      rw [hres] at h2
      exact sent_body_eq _ _ _ _ _ _ h2
    subst hd
    refine ⟨rfl, fun env henv => ?_⟩
    simp only [_send_documents, List.mem_singleton] at henv
    subst henv
    refine ⟨?_, ?_, ?_, ?_, ?_⟩ <;>
      simp [envelope_header, envelope_action, envelope_header_id, envelope_payload,
        envelope_payload_field, _send_documents, payloadDict, Dict.update, Dict.insert,
        Dict.get?, add_to_cart_doc]

theorem sent_envelope_invariant_witness :
    (_send_documents "u1" "T" (send_message_doc "u1" "hi")).length = 1
    ∧ ∀ env ∈ _send_documents "u1" "T" (send_message_doc "u1" "hi"),
        envelope_header env = some [("id", .str "u1"), ("action", .str "update")]
        ∧ envelope_action env = some (.str "update")
        ∧ envelope_header_id env = some (.str "u1")
        ∧ envelope_payload_field env "id" = some (.str "u1")
        ∧ envelope_header_id env = envelope_payload_field env "id" :=
  sent_envelope_invariant (some "t") "u1" "f1" "T" "hi" "c" "cu" "sk"
    (.response 200 "OK") _ (by decide) (Or.inl rfl)

/-- C9: two add_to_cart invocations with identical cart arguments but
distinct freshly drawn UUIDs dispatch envelopes with distinct identifiers
(nothing is cached or deduplicated), and a falsy supplied document id is
replaced by a freshly generated one. -/
theorem add_to_cart_fresh_distinct_ids (cartId customerId sku u1 u2 f1 f2 : String)
    (h1 : u1 ≠ "") (h2 : u2 ≠ "") (hne : u1 ≠ u2) :
    (∀ QSC_TOKEN now1 now2 net1 net2 e1 e2,
        (add_to_cart QSC_TOKEN u1 f1 now1 cartId customerId sku net1).2 = some [e1] →
        (add_to_cart QSC_TOKEN u2 f2 now2 cartId customerId sku net2).2 = some [e2] →
        envelope_header_id e1 ≠ envelope_header_id e2)
    ∧ (∀ fresh doc_id, str_falsy doc_id = true → resolve_doc_id fresh doc_id = fresh) := by
  constructor
  · intro QSC_TOKEN now1 now2 net1 net2 e1 e2 he1 he2
    have hd1 : [e1] = _send_documents u1 now1 (add_to_cart_doc u1 cartId customerId sku) := by
      have hx : (_send_to_qsc_internal QSC_TOKEN now1 (resolve_doc_id f1 (some u1))
          (add_to_cart_doc u1 cartId customerId sku) net1).2 = some [e1] := he1
      rw [resolve_doc_id_of_ne f1 u1 h1] at hx
      exact sent_body_eq _ _ _ _ _ _ hx
    have hd2 : [e2] = _send_documents u2 now2 (add_to_cart_doc u2 cartId customerId sku) := by
      have hx : (_send_to_qsc_internal QSC_TOKEN now2 (resolve_doc_id f2 (some u2))
          (add_to_cart_doc u2 cartId customerId sku) net2).2 = some [e2] := he2
      rw [resolve_doc_id_of_ne f2 u2 h2] at hx
      exact sent_body_eq _ _ _ _ _ _ hx
    have he1id : envelope_header_id e1 = some (Val.str u1) := by
      have hx : e1 = [("header", Val.obj [("id", Val.str u1), ("action", Val.str "update")]),
          ("payload", Val.obj (payloadDict u1 now1 (add_to_cart_doc u1 cartId customerId sku)))] := by
        simpa [_send_documents] using hd1
      subst hx
      simp [envelope_header_id, envelope_header, Dict.get?]
    have he2id : envelope_header_id e2 = some (Val.str u2) := by
      have hx : e2 = [("header", Val.obj [("id", Val.str u2), ("action", Val.str "update")]),
          ("payload", Val.obj (payloadDict u2 now2 (add_to_cart_doc u2 cartId customerId sku)))] := by
        simpa [_send_documents] using hd2
      subst hx
      simp [envelope_header_id, envelope_header, Dict.get?]
    rw [he1id, he2id]
    intro hcontra
    exact hne (by simpa using hcontra)
  · intro fresh doc_id hd
    cases doc_id with
    | none => rfl
    | some s =>
      simp only [str_falsy] at hd
      simp [resolve_doc_id, hd]

theorem add_to_cart_fresh_distinct_ids_witness :
    envelope_header_id
        [("header", Val.obj [("id", Val.str "a"), ("action", Val.str "update")]),
         ("payload", Val.obj (payloadDict "a" "T" (add_to_cart_doc "a" "c1" "cust1" "sku1")))]
      ≠ envelope_header_id
        [("header", Val.obj [("id", Val.str "b"), ("action", Val.str "update")]),
         ("payload", Val.obj (payloadDict "b" "T" (add_to_cart_doc "b" "c1" "cust1" "sku1")))] :=
  (add_to_cart_fresh_distinct_ids "c1" "cust1" "sku1" "a" "b" "fa" "fb"
      (by decide) (by decide) (by decide)).1
    (some "t") "T" "T" (.response 200 "OK") (.response 200 "OK") _ _ rfl rfl

/-- C10: whenever send_message or add_to_cart returns a result dict, the id
field of that dict is the dispatch identifier, the same identifier sits in
the dispatched envelope header and payload, and the caller arguments appear
verbatim in the payload (message; cartId, customerId, sku with type
addToCart). This covers every returned result, the ok true and the ok false
branch alike. -/
theorem result_id_flows_to_envelope (QSC_TOKEN : Option String)
    (uuid fresh now message cartId customerId sku : String) (net : PostOutcome)
    (hu : uuid ≠ "") :
    (∀ d, (send_message QSC_TOKEN uuid fresh now message net).1 = .ret d →
      Dict.get? d "id" = some (.str uuid)
      ∧ ∃ env, (send_message QSC_TOKEN uuid fresh now message net).2 = some [env]
          ∧ envelope_header_id env = some (.str uuid)
          ∧ envelope_payload_field env "id" = some (.str uuid)
          ∧ envelope_payload_field env "message" = some (.str message))
    ∧ (∀ d, (add_to_cart QSC_TOKEN uuid fresh now cartId customerId sku net).1 = .ret d →
      Dict.get? d "id" = some (.str uuid)
      ∧ ∃ env, (add_to_cart QSC_TOKEN uuid fresh now cartId customerId sku net).2 = some [env]
          ∧ envelope_header_id env = some (.str uuid)
          ∧ envelope_payload_field env "id" = some (.str uuid)
          ∧ envelope_payload_field env "type" = some (.str "addToCart")
          ∧ envelope_payload_field env "cartId" = some (.str cartId)
          ∧ envelope_payload_field env "customerId" = some (.str customerId)
          ∧ envelope_payload_field env "sku" = some (.str sku)) := by
  have hres : resolve_doc_id fresh (some uuid) = uuid := resolve_doc_id_of_ne fresh uuid hu
  constructor
  · intro d hd
    by_cases ht : str_falsy QSC_TOKEN
    · simp [send_message, send_to_qsc_with_doc_id, _send_to_qsc_internal, ht] at hd
    · cases net with
      | raised m =>
        simp [send_message, send_to_qsc_with_doc_id, _send_to_qsc_internal, ht] at hd
      | response status text =>
        have hdq : d = [("id", Val.str uuid), ("status", Val.num status),
            ("ok", Val.bool (is_success status)), ("text", Val.str text)] := by
          have hx := hd
          simp [send_message, send_to_qsc_with_doc_id, _send_to_qsc_internal,
            ht, hres] at hx
          exact hx.symm
        refine ⟨by simp [hdq, Dict.get?],
          [("header", Val.obj [("id", Val.str uuid), ("action", Val.str "update")]),
           ("payload", Val.obj (payloadDict uuid now (send_message_doc uuid message)))],
          ?_, ?_, ?_, ?_⟩
        · simp [send_message, send_to_qsc_with_doc_id, _send_to_qsc_internal,
            ht, hres, _send_documents]
        · simp [envelope_header_id, envelope_header, Dict.get?]
        · simp [envelope_payload_field, envelope_payload, Dict.get?, payloadDict,
            Dict.update, Dict.insert, send_message_doc]
        · simp [envelope_payload_field, envelope_payload, Dict.get?, payloadDict,
            Dict.update, Dict.insert, send_message_doc]
  · intro d hd
    by_cases ht : str_falsy QSC_TOKEN
    · simp [add_to_cart, send_to_qsc_with_doc_id, _send_to_qsc_internal, ht] at hd
    · cases net with
      | raised m =>
        simp [add_to_cart, send_to_qsc_with_doc_id, _send_to_qsc_internal, ht] at hd
      | response status text =>
        have hdq : d = [("id", Val.str uuid), ("status", Val.num status),
            ("ok", Val.bool (is_success status)), ("text", Val.str text)] := by
          have hx := hd
          simp [add_to_cart, send_to_qsc_with_doc_id, _send_to_qsc_internal,
            ht, hres] at hx
          exact hx.symm
        refine ⟨by simp [hdq, Dict.get?],
          [("header", Val.obj [("id", Val.str uuid), ("action", Val.str "update")]),
           ("payload", Val.obj (payloadDict uuid now
             (add_to_cart_doc uuid cartId customerId sku)))],
          ?_, ?_, ?_, ?_, ?_, ?_, ?_⟩
        · simp [add_to_cart, send_to_qsc_with_doc_id, _send_to_qsc_internal,
            ht, hres, _send_documents]
        · simp [envelope_header_id, envelope_header, Dict.get?]
        all_goals
          simp [envelope_payload_field, envelope_payload, Dict.get?, payloadDict,
            Dict.update, Dict.insert, add_to_cart_doc]

theorem result_id_flows_to_envelope_witness :
    Dict.get? [("id", Val.str "u1"), ("status", Val.num 201), ("ok", Val.bool true),
        ("text", Val.str "Created")] "id" = some (Val.str "u1")
    ∧ ∃ env, (send_message (some "t") "u1" "f1" "T" "hello" (.response 201 "Created")).2
          = some [env]
        ∧ envelope_header_id env = some (Val.str "u1")
        ∧ envelope_payload_field env "id" = some (Val.str "u1")
        ∧ envelope_payload_field env "message" = some (Val.str "hello") :=
  (result_id_flows_to_envelope (some "t") "u1" "f1" "T" "hello" "c" "cu" "s"
      (.response 201 "Created") (by decide)).1
    [("id", Val.str "u1"), ("status", Val.num 201), ("ok", Val.bool true),
     ("text", Val.str "Created")] rfl
